import Mathlib

/-!
Verification development for the LLM-Agent-Orchestrator repository.

Each definition below is a shallow embedding of a function or data
structure of the Python source, translated clause by clause:

* `src/utils/metrics.py`            → `calculate_flops`, `MetricsState`, the add
                                      operations and `runMetrics`
* `src/orchestrator/result_handler.py` → `is_empty_answer`,
                                      `parse_json_response`, `evaluate_results`
* `src/utils/llm_loader.py`         → `VLLMLoader.generate` as `generateLLM`
* `src/routers/global_router.py`    → `SubTask`, `TaskDAG`, the validators,
                                      `create_dag` / `decompose_task` and the
                                      fallback graph
* `src/routers/agent_subrouter.py`  → router-service model selection and the
                                      domain prompt builder
* `src/orchestrator/graph_builder.py` → graph construction and the LangGraph
                                      execution semantics (reachability-driven
                                      superstep execution from the single
                                      entry point)

Python floats are modelled as rationals (`ℚ`), Python ints as `ℤ`,
strings as `String`, dicts either as records (fixed key sets) or as
association lists (open key sets).  Fallible code is modelled with
`Option`/`Except`.
-/

namespace Orchestrator

/-! ## Python string primitives

`str.strip()`, `str.lower()` and `str.startswith()` are modelled
directly as structurally recursive functions on the character list, so
that every definition in this file evaluates by kernel reduction. -/

/-- The whitespace characters stripped by Python `str.strip()` (the
ASCII ones). -/
def isPyWhitespace (c : Char) : Bool :=
  c == ' ' || c == '\t' || c == '\n' || c == '\r' || c == '\x0b' || c == '\x0c'

/-- Drop leading whitespace from a character list. -/
def dropLeadingWs : List Char → List Char
  | [] => []
  | c :: cs => if isPyWhitespace c then dropLeadingWs cs else c :: cs

/-- Python `s.strip()`: remove leading and trailing whitespace. -/
def strStrip (s : String) : String :=
  ⟨dropLeadingWs (dropLeadingWs s.data.reverse).reverse⟩

/-- Lowercase one character (ASCII, as all compared literals are
ASCII). -/
def charLower (c : Char) : Char :=
  if 65 ≤ c.toNat ∧ c.toNat ≤ 90 then Char.ofNat (c.toNat + 32) else c

/-- Python `s.lower()`. -/
def strLower (s : String) : String :=
  ⟨s.data.map charLower⟩

/-- Python `s.startswith(p)`. -/
def strStartsWith (s p : String) : Bool :=
  p.data.isPrefixOf s.data

/-! ## Metrics (src/utils/metrics.py) -/

/-- `calculate_flops`: FLOPs ≈ 2 * Parameters * Total_Tokens, returned in
TFLOPs.  `param_billion` is the parameter count in billions, so the raw
FLOP count is `2 * (param_billion * 10^9) * total_tokens`, divided by
`10^12` for TFLOPs. -/
def calculate_flops (param_billion : ℚ) (total_tokens : ℤ) : ℚ :=
  2 * (param_billion * (10 : ℚ) ^ 9) * (total_tokens : ℚ) / (10 : ℚ) ^ 12

/-- The `model_sizes` dictionary of `MetricsCollector.__init__`
(parameter counts in billions), as an optional lookup: absent keys are
`none` (a Python `KeyError`). -/
def model_sizes (key : String) : Option ℚ :=
  if key = "global-router" then some 8
  else if key = "result-handler" then some 8
  else if key = "agent-1b" then some 1
  else if key = "agent-8b" then some 8
  else none

/-- One entry of `router_calls` / `handler_calls`: the dict appended by
`add_router_call`, `add_sub_router_call` and `add_handler_call`. -/
structure CallRec where
  inputTokens : ℤ
  outputTokens : ℤ
  totalTokens : ℤ
  flops : ℚ
  deriving Repr, DecidableEq

/-- One entry of `agent_calls`: the dict appended by `add_agent_call`. -/
structure AgentCallRec where
  domain : String
  modelSize : String
  inputTokens : ℤ
  outputTokens : ℤ
  totalTokens : ℤ
  flops : ℚ
  deriving Repr, DecidableEq

/-- The mutable state of a `MetricsCollector`. -/
structure MetricsState where
  routerCalls : List CallRec
  agentCalls : List AgentCallRec
  handlerCalls : List CallRec
  totalFlops : ℚ
  deriving Repr, DecidableEq

/-- `MetricsCollector.reset`: empty lists, zero total. -/
def resetMetrics : MetricsState :=
  { routerCalls := [], agentCalls := [], handlerCalls := [], totalFlops := 0 }

/-- `add_router_call`: appends to `router_calls` using the
`global-router` parameter count (8 B) and adds the call's FLOPs to
`total_flops`. -/
def add_router_call (s : MetricsState) (inTok outTok : ℤ) : MetricsState :=
  let t := inTok + outTok
  let f := calculate_flops 8 t
  { s with
    routerCalls := s.routerCalls ++ [⟨inTok, outTok, t, f⟩],
    totalFlops := s.totalFlops + f }

/-- `add_sub_router_call`: appends to `router_calls` (the same list as
the global-router calls) using the `agent-1b` parameter count (1 B). -/
def add_sub_router_call (s : MetricsState) (inTok outTok : ℤ) : MetricsState :=
  let t := inTok + outTok
  let f := calculate_flops 1 t
  { s with
    routerCalls := s.routerCalls ++ [⟨inTok, outTok, t, f⟩],
    totalFlops := s.totalFlops + f }

/-- `add_agent_call` given the parameter count already looked up from
`model_sizes` (the lookup itself is performed in `stepMetrics`, where a
missing key is a `KeyError`). -/
def add_agent_call (s : MetricsState) (domain modelSize : String) (p : ℚ)
    (inTok outTok : ℤ) : MetricsState :=
  let t := inTok + outTok
  let f := calculate_flops p t
  { s with
    agentCalls := s.agentCalls ++ [⟨domain, modelSize, inTok, outTok, t, f⟩],
    totalFlops := s.totalFlops + f }

/-- `add_handler_call`: appends to `handler_calls` using the
`result-handler` parameter count (8 B). -/
def add_handler_call (s : MetricsState) (inTok outTok : ℤ) : MetricsState :=
  let t := inTok + outTok
  let f := calculate_flops 8 t
  { s with
    handlerCalls := s.handlerCalls ++ [⟨inTok, outTok, t, f⟩],
    totalFlops := s.totalFlops + f }

/-- The four recording operations of `MetricsCollector`. -/
inductive MetricsOp where
  | routerCall (inTok outTok : ℤ)
  | subRouterCall (inTok outTok : ℤ)
  | agentCall (domain modelSize : String) (inTok outTok : ℤ)
  | handlerCall (inTok outTok : ℤ)
  deriving Repr, DecidableEq

/-- Apply one recording operation.  `add_agent_call` looks up the key
`"agent-" + model_size` in `model_sizes`; a missing key raises
`KeyError`, modelled as `none`. -/
def stepMetrics (s : MetricsState) : MetricsOp → Option MetricsState
  | .routerCall i o => some (add_router_call s i o)
  | .subRouterCall i o => some (add_sub_router_call s i o)
  | .agentCall d ms i o =>
      (model_sizes ("agent-" ++ ms)).map fun p => add_agent_call s d ms p i o
  | .handlerCall i o => some (add_handler_call s i o)

/-- Run a sequence of recording operations from a starting state. -/
def runMetricsFrom (s : MetricsState) : List MetricsOp → Option MetricsState
  | [] => some s
  | op :: ops => (stepMetrics s op).bind fun s₂ => runMetricsFrom s₂ ops

/-- A full collector run: `reset` followed by the recorded calls, as in
`process_task`. -/
def runMetrics (ops : List MetricsOp) : Option MetricsState :=
  runMetricsFrom resetMetrics ops

/-- The FLOP cost the collector charges for one operation, in TFLOPs:
`2 × Pᵢ × 10⁹ × total_tokensᵢ / 10¹²` with the parameter count of the
model class that made the call. -/
def opFlops : MetricsOp → ℚ
  | .routerCall i o => calculate_flops 8 (i + o)
  | .subRouterCall i o => calculate_flops 1 (i + o)
  | .agentCall _ ms i o =>
      calculate_flops ((model_sizes ("agent-" ++ ms)).getD 0) (i + o)
  | .handlerCall i o => calculate_flops 8 (i + o)

/-- Both token arguments of an operation are non-negative. -/
def opTokensNonneg : MetricsOp → Prop
  | .routerCall i o => 0 ≤ i ∧ 0 ≤ o
  | .subRouterCall i o => 0 ≤ i ∧ 0 ≤ o
  | .agentCall _ _ i o => 0 ≤ i ∧ 0 ≤ o
  | .handlerCall i o => 0 ≤ i ∧ 0 ≤ o

instance : DecidablePred opTokensNonneg := by
  intro op
  cases op <;> simp [opTokensNonneg] <;> infer_instance

/-- Sum of the `flops` fields of every call recorded in the state. -/
def sumRecordedFlops (s : MetricsState) : ℚ :=
  (s.routerCalls.map CallRec.flops).sum
    + (s.agentCalls.map AgentCallRec.flops).sum
    + (s.handlerCalls.map CallRec.flops).sum

/-- A recorded router/handler call entry is priced by the FLOP formula:
its `total_tokens` is the sum of input and output tokens and its `flops`
is `calculate_flops` at the parameter count of the calling class (8 B
for the global router and result handler, 1 B for the sub-router, which
also records into `router_calls`). -/
def callRecPriced (c : CallRec) : Prop :=
  c.totalTokens = c.inputTokens + c.outputTokens
    ∧ (c.flops = calculate_flops 8 c.totalTokens
        ∨ c.flops = calculate_flops 1 c.totalTokens)

/-- A recorded agent call entry is priced by the FLOP formula at the
parameter count looked up from `model_sizes` for its model size. -/
def agentCallPriced (c : AgentCallRec) : Prop :=
  c.totalTokens = c.inputTokens + c.outputTokens
    ∧ c.flops = calculate_flops
        ((model_sizes ("agent-" ++ c.modelSize)).getD 0) c.totalTokens

/-- Every call recorded in the collector state is priced by the FLOP
formula. -/
def allCallsPriced (s : MetricsState) : Prop :=
  (∀ c ∈ s.routerCalls, callRecPriced c)
    ∧ (∀ c ∈ s.agentCalls, agentCallPriced c)
    ∧ (∀ c ∈ s.handlerCalls, callRecPriced c)

/-! ## Result handler (src/orchestrator/result_handler.py) -/

/-- The `placeholders` list of `ResultHandler._is_empty_answer`, in
source order. -/
def placeholders : List String :=
  ["[no result available]", "no answer", "insufficient information",
   "unable to answer", "cannot answer"]

/-- `ResultHandler._is_empty_answer`: `True` when the answer is falsy
(empty), shorter than 20 characters, or its lowercased-and-stripped form
equals or starts with one of the placeholders. -/
def is_empty_answer (answer : String) : Bool :=
  if answer = "" then true
  else
    let answerLower := strStrip (strLower answer)
    if answer.length < 20 then true
    else placeholders.any fun p => answerLower == p || strStartsWith answerLower p

/-- The parsed form of the guided-JSON synthesis response
(`answer_schema`): `answer` defaults to the empty string via
`data.get("answer", "")`, `used_agents` to the empty list. -/
structure AnswerData where
  answer : String
  usedAgents : List String
  deriving Repr, DecidableEq

/-- `ResultHandler._parse_json_response` after JSON decoding.  `parsed =
none` is the `json.JSONDecodeError` branch (reached when even the
truncation repair fails); otherwise the answer is stripped and
classified with `_is_empty_answer`.  Returns
`(final_answer, should_stop, feedback)`. -/
def parse_json_response (parsed : Option AnswerData)
    (originalMerged : String) : String × Bool × String :=
  match parsed with
  | none =>
      (originalMerged, false,
        "ResultHandler failed to generate valid JSON response. Retrying with clearer synthesis instructions.")
  | some d =>
      let answer := strStrip d.answer
      if is_empty_answer answer then
        (originalMerged, false,
          "Empty or insufficient answer generated. Agent results may be incomplete. Retrying with refinement.")
      else
        (answer, true, "Answer synthesized successfully")

/-- The observable outcome of the synthesis LLM call inside
`evaluate_results`: the call raised, returned empty/whitespace text, or
returned text whose JSON decoding produced `parsed`. -/
inductive SynthOutcome where
  | callFailed (msg : String)
  | emptyResponse
  | response (parsed : Option AnswerData)
  deriving Repr, DecidableEq

/-- `ResultHandler.evaluate_results`: retry-limit bypass first, then the
LLM call, the empty-response check and JSON parsing. -/
def evaluate_results (retryCount maxRetry : ℕ) (outcome : SynthOutcome)
    (merged : String) : String × Bool × String :=
  if maxRetry ≤ retryCount then (merged, true, "Max retry limit reached")
  else
    match outcome with
    | .callFailed msg =>
        (merged, false,
          "ResultHandler LLM call failed: " ++ msg ++
            ". Unable to evaluate results. Please retry with different task decomposition.")
    | .emptyResponse =>
        (merged, false,
          "ResultHandler received empty response. Unable to evaluate results. Please retry.")
    | .response parsed => parse_json_response parsed merged

/-! ## LLM client (src/utils/llm_loader.py) -/

/-- The `endpoints` dict of `VLLMLoader.__init__` with the default
environment values. -/
def endpoints (key : String) : Option String :=
  if key = "llama-1b" then some "http://localhost:8000/v1"
  else if key = "llama-8b" then some "http://localhost:8001/v1"
  else none

/-- One element of the `choices` array.  `textOpt = none` models a
choice whose `text` field is absent or `null`; `choice.get("text", "")`
then yields the empty string. -/
structure LLMChoice where
  textOpt : Option String
  deriving Repr, DecidableEq

/-- A parsed JSON-object response body.  `result.get("choices", [])`
treats an absent `choices` key as the empty list, so only the list is
modelled. -/
structure LLMBody where
  choices : List LLMChoice
  deriving Repr, DecidableEq

/-- The observable outcome of the HTTP request issued by
`VLLMLoader.generate`: a transport error (a
`requests.exceptions.RequestException`, including timeouts),
`raise_for_status` on a 4xx/5xx status, a body that is not valid JSON
(`ValueError`), or a 2xx response with a JSON object body. -/
inductive RequestOutcome where
  | transportError
  | httpError (status : ℕ)
  | badJson
  | ok (body : LLMBody)
  deriving Repr, DecidableEq

/-- The Python truthiness chain
`fallback_label or model_name or endpoint_key` (with `None` and `""`
falsy). -/
def resolveLabel (fallbackLabel : Option String)
    (modelName endpointKey : String) : String :=
  match fallbackLabel with
  | some l =>
      if l ≠ "" then l
      else if modelName ≠ "" then modelName else endpointKey
  | none => if modelName ≠ "" then modelName else endpointKey

/-- The sentinel string returned from the `except` branch of
`VLLMLoader.generate`. -/
def mock_response (label prompt : String) : String :=
  "[MOCK RESPONSE for " ++ label ++ "] " ++ prompt.take 50 ++ "..."

/-- Outcomes on which `generate` reaches its `except` branch and
returns the mock sentinel: transport error, raised HTTP status, invalid
JSON, or an absent/empty `choices` array. -/
def isMockOutcome : RequestOutcome → Bool
  | .transportError => true
  | .httpError _ => true
  | .badJson => true
  | .ok body => body.choices.isEmpty

/-- `VLLMLoader.generate`.  The `ValueError` for an unknown endpoint key
is raised before the `try` block and escapes (`Except.error`); every
request outcome afterwards produces a plain string (`Except.ok`): the
`except` clause catches `RequestException`, `ValueError`, `KeyError` and
`IndexError` and returns the mock sentinel, and a nonempty `choices`
array yields `(text or "").strip()` of the first choice. -/
def generateLLM (endpointKey modelName prompt : String)
    (fallbackLabel : Option String) (outcome : RequestOutcome) :
    Except String String :=
  match endpoints endpointKey with
  | none => Except.error ("Unknown endpoint key: " ++ endpointKey)
  | some _ =>
      let label := resolveLabel fallbackLabel modelName endpointKey
      Except.ok
        (match outcome with
          | .transportError => mock_response label prompt
          | .httpError _ => mock_response label prompt
          | .badJson => mock_response label prompt
          | .ok body =>
              match body.choices with
              | [] => mock_response label prompt
              | c :: _ => strStrip (c.textOpt.getD ""))

/-! ## Global router (src/routers/global_router.py) -/

/-- The `SubTask` pydantic model. -/
structure SubTask where
  id : String
  role : String
  content : String
  dependencies : List String
  deriving Repr, DecidableEq

/-- The `allowed_roles` set of `SubTask.validate_role`. -/
def allowed_roles : List String := ["planning", "execution", "review"]

/-- `SubTask.validate_role`: the role is in the allowed set and the task
does not depend on itself. -/
def validate_role (t : SubTask) : Bool :=
  allowed_roles.contains t.role && !(t.dependencies.contains t.id)

/-- The `TaskDAG` pydantic model. -/
structure TaskDAG where
  tasks : List SubTask
  deriving Repr, DecidableEq

/-- `task_ids` as computed in `TaskDAG.validate_graph`. -/
def task_ids (tasks : List SubTask) : List String := tasks.map SubTask.id

/-- `len(task_ids) == len(set(task_ids))`: no duplicate entries. -/
def nodupBool : List String → Bool
  | [] => true
  | x :: xs => !(xs.contains x) && nodupBool xs

/-- `TaskDAG.validate_graph`: ids unique and every dependency of every
task is the id of some task of the DAG. -/
def validate_graph (tasks : List SubTask) : Bool :=
  nodupBool (task_ids tasks) &&
    tasks.all fun t => t.dependencies.all fun dep => (task_ids tasks).contains dep

/-- A `TaskDAG` value as produced by
`TaskDAG.model_validate_json`: every per-task validator and the graph
validator passed. -/
def validate_dag (d : TaskDAG) : Bool :=
  d.tasks.all validate_role && validate_graph d.tasks

/-- The dependency edge relation of a `TaskDAG`: an edge `a → b` when
task `b` declares `a` among its dependencies (the spec's
"edge `from dep → to task`"). -/
def depEdge (d : TaskDAG) (a b : String) : Prop :=
  ∃ t ∈ d.tasks, t.id = b ∧ a ∈ t.dependencies

/-- Acyclicity of the induced dependency digraph: no id lies on a
nonempty directed cycle. -/
def AcyclicDag (d : TaskDAG) : Prop :=
  ∀ x : String, ¬ Relation.TransGen (depEdge d) x x

/-- Outcome of one decomposition attempt: the guided-JSON response text
after `_clean_json_string`, as seen by `TaskDAG.model_validate_json` —
either it is not a structurally valid `TaskDAG` document at all, or it
decodes to the candidate `d` (which is then subject to the pydantic
validators). -/
inductive DecodeResult where
  | parseError
  | decoded (d : TaskDAG)
  deriving Repr, DecidableEq

/-- The attempt loop of `GlobalRouter.create_dag`: try attempts `i`,
`i+1`, … while fuel remains; an attempt succeeds when it decodes and
passes `validate_dag`, otherwise the error is recorded and the loop
continues.  `MAX_RETRY = 3` gives the initial fuel. -/
def create_dag_loop (attempts : ℕ → DecodeResult) : ℕ → ℕ → Option TaskDAG
  | _, 0 => none
  | i, fuel + 1 =>
      match attempts i with
      | .decoded d =>
          if validate_dag d then some d else create_dag_loop attempts (i + 1) fuel
      | .parseError => create_dag_loop attempts (i + 1) fuel

/-- `GlobalRouter.create_dag`: up to `MAX_RETRY = 3` attempts, returning
the first validated DAG or `None`. -/
def create_dag (attempts : ℕ → DecodeResult) : Option TaskDAG :=
  create_dag_loop attempts 0 3

/-- One edge of the legacy graph format; the source dict is
`\x7b"from": src, "to": tgt\x7d`. -/
structure GraphEdge where
  src : String
  tgt : String
  deriving Repr, DecidableEq

/-- The legacy graph format consumed by `GraphBuilder`.  A node is a
Python dict with string keys and values, modelled as an association
list. -/
structure RouterGraph where
  nodes : List (List (String × String))
  edges : List GraphEdge
  deriving Repr, DecidableEq

/-- Dict lookup `d[k]`, `none` when the key is absent (`KeyError`). -/
def lookupKey (d : List (String × String)) (k : String) : Option String :=
  (d.find? fun kv => kv.1 == k).map fun kv => kv.2

/-- `GlobalRouter._taskdag_to_graph`: nodes carry keys `id`, `role`,
`task`; each declared dependency becomes an edge `dep → task`. -/
def taskdag_to_graph (d : TaskDAG) : RouterGraph :=
  { nodes := d.tasks.map fun t => [("id", t.id), ("role", t.role), ("task", t.content)],
    edges := d.tasks.flatMap fun t => t.dependencies.map fun dep => ⟨dep, t.id⟩ }

/-- `GlobalRouter._create_default_graph`: the fallback sequential
three-node workflow planning → execution → review. -/
def create_default_graph (task : String) : RouterGraph :=
  { nodes :=
      [[("id", "planning"), ("role", "planning"), ("task", "Create a plan for: " ++ task)],
       [("id", "execution"), ("role", "execution"), ("task", "Execute: " ++ task)],
       [("id", "review"), ("role", "review"), ("task", "Review the execution of: " ++ task)]],
    edges := [⟨"planning", "execution"⟩, ⟨"execution", "review"⟩] }

/-- The fallback DAG the specification claims
(`tasks: [id "task1", domain commonsense, content task, no
dependencies]`), written in the same legacy graph format for
comparison.  This definition follows the spec's words, not the source. -/
def spec_single_node_fallback (task : String) : RouterGraph :=
  { nodes := [[("id", "task1"), ("domain", "commonsense"), ("task", task)]],
    edges := [] }

/-- `GlobalRouter.decompose_task`: a validated DAG is converted to the
legacy graph format; when all attempts fail, the default sequential
graph is returned. -/
def decompose_task (attempts : ℕ → DecodeResult) (task : String) : RouterGraph :=
  match create_dag attempts with
  | none => create_default_graph task
  | some d => taskdag_to_graph d

/-! ## Graph builder and scheduler
(src/orchestrator/graph_builder.py; the LangGraph runtime is modelled by
its documented semantics: execution starts at the single entry point and
a node runs once all sources of its incoming edges have run) -/

/-- A node of the compiled workflow, after `build_graph` has read
`node["id"]`, `node["domain"]` and `node["task"]`. -/
structure SchedNode where
  id : String
  domain : String
  task : String
  deriving Repr, DecidableEq

/-- The compiled workflow: nodes, edges, and the chosen entry and finish
points. -/
structure SchedGraph where
  nodes : List SchedNode
  edges : List GraphEdge
  entryId : String
  finishId : String
  deriving Repr, DecidableEq

/-- `GraphBuilder._find_entry_node`: the node ids minus the edge-target
ids; of these the implementation picks an arbitrary set element
(modelled as the first in node order); when there is none it falls back
to `nodes[0]`, an `IndexError` on an empty node list. -/
def find_entry_node (nodeIds : List String) (edges : List GraphEdge) :
    Except String String :=
  let targets := edges.map GraphEdge.tgt
  match nodeIds.filter fun i => !(targets.contains i) with
  | [] =>
      match nodeIds.head? with
      | none => Except.error "IndexError: nodes[0]"
      | some i => Except.ok i
  | i :: _ => Except.ok i

/-- `GraphBuilder._find_finish_node`: the node ids minus the edge-source
ids, falling back to `nodes[-1]`. -/
def find_finish_node (nodeIds : List String) (edges : List GraphEdge) :
    Except String String :=
  let sources := edges.map GraphEdge.src
  match nodeIds.filter fun i => !(sources.contains i) with
  | [] =>
      match nodeIds.getLast? with
      | none => Except.error "IndexError: nodes[-1]"
      | some i => Except.ok i
  | i :: _ => Except.ok i

/-- Read one node dict in the order of `build_graph`:
`node["id"]`, `node["domain"]`, `node["task"]`; a missing key is a
`KeyError`. -/
def read_builder_node (n : List (String × String)) : Except String SchedNode := do
  let i ← match lookupKey n "id" with
    | some v => Except.ok v
    | none => Except.error "KeyError: id"
  let dm ← match lookupKey n "domain" with
    | some v => Except.ok v
    | none => Except.error "KeyError: domain"
  let tk ← match lookupKey n "task" with
    | some v => Except.ok v
    | none => Except.error "KeyError: task"
  Except.ok ⟨i, dm, tk⟩

/-- `GraphBuilder.build_graph`: add every node (reading its `id`,
`domain` and `task` keys), add the edges, then choose the entry and
finish points. -/
def build_graph (g : RouterGraph) : Except String SchedGraph := do
  let nodes ← g.nodes.mapM read_builder_node
  let ids := nodes.map SchedNode.id
  let entry ← find_entry_node ids g.edges
  let fin ← find_finish_node ids g.edges
  Except.ok ⟨nodes, g.edges, entry, fin⟩

/-- The first two steps of one iteration of
`LLMOrchestrator.process_task` in orchestrator mode: decompose the task,
then build the execution graph.  `process_task` wraps none of this in
an exception handler, so an `Except.error` here escapes `process_task`
itself. -/
def process_task_decompose_and_build (attempts : ℕ → DecodeResult)
    (task : String) : Except String SchedGraph :=
  build_graph (decompose_task attempts task)

/-- A node is ready under LangGraph semantics when it has not yet run,
has at least one incoming edge, and every source of its incoming edges
has run. -/
def ready_to_run (edges : List GraphEdge) (done : List String) (n : SchedNode) :
    Bool :=
  !(done.contains n.id) && (edges.any fun e => e.tgt == n.id) &&
    ((edges.filter fun e => e.tgt == n.id).all fun e => done.contains e.src)

/-- One superstep: every ready node runs and records its result under
its own id. -/
def sched_step (g : SchedGraph) (done : List String) : List String :=
  done ++ (g.nodes.filter (ready_to_run g.edges done)).map SchedNode.id

/-- Iterated supersteps. -/
def sched_run (g : SchedGraph) : ℕ → List String → List String
  | 0, done => done
  | n + 1, done => sched_run g n (sched_step g done)

/-- The ids present in the `results` map at termination of
`execute_graph`: execution starts from the single entry point and
propagates along edges; `nodes.length` supersteps suffice to reach the
fixed point. -/
def executed_ids (g : SchedGraph) : List String :=
  sched_run g g.nodes.length [g.entryId]

/-! ## Agent subrouter (src/routers/agent_subrouter.py) -/

/-- The `model_configs` dict of `VLLMLoader.__init__` (default
environment values): key → (endpoint key, model name). -/
def model_configs (key : String) : Option (String × String) :=
  if key = "global-router" then some ("llama-8b", "meta-llama/Llama-3.1-8B")
  else if key = "result-handler" then some ("llama-8b", "meta-llama/Llama-3.1-8B")
  else if key = "commonsense-1b" then some ("llama-1b", "csqa-lora")
  else if key = "commonsense-8b" then some ("llama-8b", "csqa-lora")
  else if key = "medical-1b" then some ("llama-1b", "medqa-lora")
  else if key = "medical-8b" then some ("llama-8b", "medqa-lora")
  else if key = "law-1b" then some ("llama-1b", "casehold-lora")
  else if key = "law-8b" then some ("llama-8b", "casehold-lora")
  else if key = "math-1b" then some ("llama-1b", "mathqa-lora")
  else if key = "math-8b" then some ("llama-8b", "mathqa-lora")
  else none

/-- The JSON body answered by the router service on a successful
`POST /route/\x7bdomain\x7d` call. -/
structure RouterServiceResponse where
  prediction : String
  probability : ℚ
  deriving Repr, DecidableEq

/-- `AgentSubRouter._call_router_service`: `none` models a
`requests.exceptions.RequestException` (transport failure, timeout, or a
non-2xx status through `raise_for_status`), re-raised as a generic
exception.  On success the response's `prediction` and `probability`
are read, but `final_decision` is hard-coded to `"8b"`
(the `# ABlation Test` line); the threshold policy is commented out. -/
def call_router_service (resp : Option RouterServiceResponse) :
    Except String String :=
  match resp with
  | none => Except.error "Router service request failed"
  | some _ => Except.ok "8b"

/-- `AgentSubRouter.select_model_for_domain`: decide the model size via
the router service (default `"1b"` when disabled or on failure), then
resolve `(endpoint_key, model_name, model_size)` from `model_configs`;
a missing configuration raises `ValueError`. -/
def select_model_for_domain (useRouterService : Bool)
    (resp : Option RouterServiceResponse) (domain : String) :
    Except String (String × String × String) :=
  let modelSize :=
    if useRouterService then
      match call_router_service resp with
      | .ok s => s
      | .error _ => "1b"
    else "1b"
  let keySize :=
    if modelSize == "large" || modelSize == "8b" then (domain ++ "-8b", "8b")
    else (domain ++ "-1b", "1b")
  match model_configs keySize.1 with
  | none => Except.error ("Model configuration missing for " ++ keySize.1)
  | some cfg => Except.ok (cfg.1, cfg.2, keySize.2)

/-- The per-role/per-domain agent configuration entries loaded from
`agents/config.json` (`AgentConfig`); only the prompt template, the
temperature and the token cap are read by the subrouter. -/
structure AgentCfg where
  template : String
  temperature : ℚ
  maxTokens : ℕ
  deriving Repr, DecidableEq

/-- The context filter inside `AgentSubRouter._build_domain_prompt`:
keep entries whose key is not `user_id` and whose value is truthy with
non-whitespace content (`k not in ['user_id'] and v and str(v).strip()`).
A Python dict is modelled as an association list in insertion order. -/
def filter_context (ctx : List (String × String)) :
    List (String × String) :=
  ctx.filter fun kv => !(kv.1 == "user_id") && !(kv.2 == "") && !(strStrip kv.2 == "")

/-- `"\n".join(f"\x7bk\x7d: \x7bv\x7d" for k, v in ...)`. -/
def format_context_lines (ctx : List (String × String)) : String :=
  String.intercalate "\n" (ctx.map fun kv => kv.1 ++ ": " ++ kv.2)

/-- `AgentSubRouter._build_domain_prompt`: template, task, optionally
the filtered context, then the `Response:` marker.  Without an agent
configuration the simple fallback prompt is used.  (The source's final
`if context_str:` re-check is redundant — the joined string of a
nonempty filtered list is never empty, since every line contains
`": "`.) -/
def build_domain_prompt (cfg : Option AgentCfg) (task : String)
    (ctx : List (String × String)) : String :=
  match cfg with
  | none => "Task: " ++ task ++ "\n\nResponse:"
  | some c =>
      let base := c.template ++ "\n\nTask: " ++ strStrip task
      let withCtx :=
        if ctx.isEmpty then base
        else
          let filtered := filter_context ctx
          if filtered.isEmpty then base
          else base ++ "\n\nContext: " ++ format_context_lines filtered
      withCtx ++ "\n\nResponse:"

/-! ## Concrete inputs used in counterexamples and witnesses -/

/-- A decomposition attempt outcome that does not yield a validated DAG:
either the response fails to decode, or it decodes but fails the
pydantic validators (`ValidationError` in both cases). -/
def attempt_fails : DecodeResult → Prop
  | .parseError => True
  | .decoded d => validate_dag d = false

/-- A legacy-format DAG with two independent nodes (both of in-degree
zero) and no edges, with well-formed `domain`-keyed node dicts. -/
def twoIndepGraph : RouterGraph :=
  { nodes :=
      [[("id", "node_a"), ("domain", "math"), ("task", "Compute the derivative of the polynomial")],
       [("id", "node_b"), ("domain", "law"), ("task", "Check the relevant statute of limitations")]],
    edges := [] }

/-- The compiled form of `twoIndepGraph` as `build_graph` produces it:
entry and finish fall on `node_a`, the first in-degree-zero /
out-degree-zero node in node order. -/
def twoIndepSched : SchedGraph :=
  { nodes :=
      [⟨"node_a", "math", "Compute the derivative of the polynomial"⟩,
       ⟨"node_b", "law", "Check the relevant statute of limitations"⟩],
    edges := [],
    entryId := "node_a",
    finishId := "node_a" }

/-- A two-node `TaskDAG` whose tasks depend on each other: a directed
2-cycle. -/
def cyclicDag : TaskDAG :=
  ⟨[⟨"task1", "planning", "Analyze the question and outline the needed steps", ["task2"]⟩,
    ⟨"task2", "execution", "Carry out the outlined steps and report the outcome", ["task1"]⟩]⟩

/-- A synthesized answer of 49 characters that merely begins with the
placeholder `no answer` without being equal to any placeholder. -/
def prefixOnlyAnswer : String := "no answer exists for this query without more data"

/-- A minimal `TaskDAG` that passes every validator. -/
def singleValidDag : TaskDAG :=
  ⟨[⟨"plan", "planning", "Outline the required analysis steps", []⟩]⟩

end Orchestrator

namespace Orchestrator

/-! ## Theorems -/

/-- Helper: an `is_empty_answer` verdict of `false` forces at least 20
characters. -/
theorem is_empty_answer_false_length {a : String}
    (h : is_empty_answer a = false) : 20 ≤ a.length := by
  unfold is_empty_answer at h
  split at h
  · exact absurd h (by simp)
  · split at h
    · exact absurd h (by simp)
    · omega

/-- Helper: characterization of `is_empty_answer` as a predicate. -/
theorem is_empty_answer_iff (a : String) :
    is_empty_answer a = true ↔
      (a = "" ∨ a.length < 20 ∨ ∃ p ∈ placeholders,
        strStrip (strLower a) = p ∨ strStartsWith (strStrip (strLower a)) p = true) := by
  unfold is_empty_answer
  split
  · simp_all
  · next hne =>
    split
    · next hlen => simp [hne, hlen]
    · next hlen =>
      simp [hne, hlen, List.any_eq_true, Bool.or_eq_true, beq_iff_eq]

/-- **C7 (corrected), counterexample.**  The claim classifies an answer
as insufficient exactly when it is empty, shorter than 20 characters, or
equal to a placeholder.  This 49-character answer is nonempty, long
enough, and equal to no placeholder, yet `_is_empty_answer` classifies
it as insufficient, because the check also fires when the answer merely
starts with a placeholder. -/
theorem placeholder_prefix_misclassified :
    is_empty_answer prefixOnlyAnswer = true
    ∧ prefixOnlyAnswer ≠ ""
    ∧ ¬ prefixOnlyAnswer.length < 20
    ∧ prefixOnlyAnswer ∉ placeholders := by
  refine ⟨by decide, by decide, by decide, by decide⟩

/-- **C7 (amended).**  A parsed synthesizer answer is classified
insufficient exactly when it is empty, shorter than 20 characters, or
its lowercased and stripped form equals or begins with one of the
placeholders; and whenever `evaluate_results` reports `should_stop =
true` before the retry limit, the returned final answer has at least 20
characters. -/
theorem synthesizer_classification_and_length :
    (∀ a : String, is_empty_answer a = true ↔
      (a = "" ∨ a.length < 20 ∨ ∃ p ∈ placeholders,
        strStrip (strLower a) = p ∨ strStartsWith (strStrip (strLower a)) p = true))
    ∧ (∀ (retryCount maxRetry : ℕ) (outcome : SynthOutcome) (merged : String),
        retryCount < maxRetry →
        (evaluate_results retryCount maxRetry outcome merged).2.1 = true →
        20 ≤ (evaluate_results retryCount maxRetry outcome merged).1.length) := by
  constructor
  · exact is_empty_answer_iff
  · intro rc mr out merged hlt hstop
    unfold evaluate_results at hstop ⊢
    rw [if_neg (by omega)] at hstop ⊢
    cases out with
    | callFailed msg => simp at hstop
    | emptyResponse => simp at hstop
    | response parsed =>
      cases parsed with
      | none => simp [parse_json_response] at hstop
      | some d =>
        by_cases he : is_empty_answer (strStrip d.answer) = true
        · simp [parse_json_response, he] at hstop
        · have hf : is_empty_answer (strStrip d.answer) = false := by
            simpa using he
          simp [parse_json_response, hf]
          exact is_empty_answer_false_length hf

/-- Witness for `synthesizer_classification_and_length` at concrete
inputs: the empty answer is insufficient, and a successful synthesis of
a long answer at iteration 0 of 3 returns at least 20 characters. -/
theorem synthesizer_classification_and_length_witness :
    is_empty_answer "" = true
    ∧ 20 ≤ (evaluate_results 0 3
        (SynthOutcome.response (some ⟨"The detailed final answer covers every aspect fully.", []⟩))
        "merged").1.length := by
  constructor
  · exact (synthesizer_classification_and_length.1 "").mpr (Or.inl rfl)
  · exact synthesizer_classification_and_length.2 0 3
      (SynthOutcome.response (some ⟨"The detailed final answer covers every aspect fully.", []⟩))
      "merged" (by omega) (by decide)

/-- **C6 (corrected), counterexample.**  The claim says a completion
call with an empty `choices` array or an empty returned text fails with
an `LLMTransportError`/`LLMEmptyResponse` surfaced to the caller.  In
the source, `generate` catches everything itself: the empty-`choices`
call returns `Except.ok` with the mock sentinel, and the
whitespace-text call returns `Except.ok ""` — no error reaches the
caller. -/
theorem llm_failure_not_surfaced :
    generateLLM "llama-1b" "csqa-lora" "Explain photosynthesis simply" (some "commonsense")
        (RequestOutcome.ok ⟨[]⟩)
      = Except.ok (mock_response "commonsense" "Explain photosynthesis simply")
    ∧ generateLLM "llama-8b" "meta-llama/Llama-3.1-8B" "Summarize the findings"
        (some "global-router") (RequestOutcome.ok ⟨[⟨some "   "⟩]⟩)
      = Except.ok "" := by
  exact ⟨rfl, rfl⟩

/-- Helper: for a known endpoint key, `generate` returns `Except.ok`
for every request outcome, the mock sentinel exactly on the
`except`-branch outcomes, and the stripped first-choice text on a
nonempty `choices` array. -/
theorem generateLLM_cases (ek mn p : String) (fl : Option String)
    (h : (endpoints ek).isSome = true) :
    (∀ o, ∃ s, generateLLM ek mn p fl o = Except.ok s)
    ∧ (∀ o, isMockOutcome o = true →
        generateLLM ek mn p fl o
          = Except.ok (mock_response (resolveLabel fl mn ek) p))
    ∧ (∀ (c : LLMChoice) (cs : List LLMChoice),
        generateLLM ek mn p fl (RequestOutcome.ok ⟨c :: cs⟩)
          = Except.ok (strStrip (c.textOpt.getD ""))) := by
  unfold generateLLM
  cases he : endpoints ek with
  | none => rw [he] at h; simp at h
  | some url =>
    refine ⟨fun o => ⟨_, rfl⟩, fun o hm => ?_, fun c cs => rfl⟩
    cases o with
    | transportError => rfl
    | httpError st => rfl
    | badJson => rfl
    | ok body =>
        obtain ⟨choices⟩ := body
        cases choices with
        | nil => rfl
        | cons c cs => simp [isMockOutcome] at hm

/-- **C6 (amended).**  For a known endpoint key, `generate` never
surfaces an error for any request outcome: it always returns a plain
string, and on a transport error, a raised HTTP status, an unparsable
body, or an empty `choices` array that string is the mock sentinel
`[MOCK RESPONSE for <label>] <prompt[:50]>...`; degradation policy
lives inside the LLM client, not with the caller. -/
theorem llm_client_never_surfaces_error :
    ∀ (ek mn p : String) (fl : Option String) (o : RequestOutcome),
      (endpoints ek).isSome = true →
      (∃ s, generateLLM ek mn p fl o = Except.ok s)
      ∧ (isMockOutcome o = true →
          generateLLM ek mn p fl o
            = Except.ok (mock_response (resolveLabel fl mn ek) p)) := by
  intro ek mn p fl o h
  exact ⟨(generateLLM_cases ek mn p fl h).1 o, (generateLLM_cases ek mn p fl h).2.1 o⟩

/-- Witness for `llm_client_never_surfaces_error`: a transport error on
the small-model endpoint yields `Except.ok` with the mock sentinel. -/
theorem llm_client_never_surfaces_error_witness :
    (endpoints "llama-1b").isSome = true
    ∧ generateLLM "llama-1b" "csqa-lora" "What season follows winter"
        (some "commonsense") RequestOutcome.transportError
      = Except.ok (mock_response "commonsense" "What season follows winter") := by
  refine ⟨by decide, ?_⟩
  exact (llm_client_never_surfaces_error "llama-1b" "csqa-lora" "What season follows winter"
    (some "commonsense") RequestOutcome.transportError (by decide)).2 (by decide)

/-- **C10 (corrected), counterexample.**  The claim says a response with
missing fields yields a string beginning `[MOCK RESPONSE for `.  A 2xx
response whose single choice lacks the `text` field instead returns the
empty string (`choice.get("text", "")` then `strip`), which does not
carry the mock marker. -/
theorem generate_missing_text_not_mock :
    generateLLM "llama-1b" "mathqa-lora" "Solve the equation for x" (some "math")
        (RequestOutcome.ok ⟨[⟨none⟩]⟩)
      = Except.ok ""
    ∧ strStartsWith "" "[MOCK RESPONSE for " = false := by
  exact ⟨rfl, by decide⟩

/-- **C10 (amended).**  For a known endpoint key, `generate` is total
over request outcomes: it always returns `Except.ok`; on transport
failure, raised HTTP status, unparsable body, or a missing/empty
`choices` array it returns exactly the mock sentinel; and when `choices`
is nonempty it returns the first choice's text (the empty string when
the `text` field is absent) stripped of surrounding whitespace. -/
theorem generate_total_over_outcomes :
    ∀ (ek mn p : String) (fl : Option String),
      (endpoints ek).isSome = true →
      (∀ o, (generateLLM ek mn p fl o).toOption.isSome = true)
      ∧ (∀ o, isMockOutcome o = true →
          generateLLM ek mn p fl o
            = Except.ok (mock_response (resolveLabel fl mn ek) p))
      ∧ (∀ (c : LLMChoice) (cs : List LLMChoice),
          generateLLM ek mn p fl (RequestOutcome.ok ⟨c :: cs⟩)
            = Except.ok (strStrip (c.textOpt.getD ""))) := by
  intro ek mn p fl h
  refine ⟨fun o => ?_, (generateLLM_cases ek mn p fl h).2.1,
    (generateLLM_cases ek mn p fl h).2.2⟩
  obtain ⟨s, hs⟩ := (generateLLM_cases ek mn p fl h).1 o
  rw [hs]; rfl

/-- Witness for `generate_total_over_outcomes`: on the large-model
endpoint, a nonempty choice with text returns the stripped text. -/
theorem generate_total_over_outcomes_witness :
    (endpoints "llama-8b").isSome = true
    ∧ generateLLM "llama-8b" "medqa-lora" "Describe the symptom" (some "medical")
        (RequestOutcome.ok ⟨[⟨some "  a fever  "⟩]⟩)
      = Except.ok "a fever" := by
  refine ⟨by decide, ?_⟩
  exact (generate_total_over_outcomes "llama-8b" "medqa-lora" "Describe the symptom"
    (some "medical") (by decide)).2.2 ⟨some "  a fever  "⟩ []

/-- **C4 (corrected), counterexample.**  The claim says a router-service
prediction of `"1b"` selects the small model.  With the service
reachable and answering `prediction = "1b"` with probability `0.99`,
`select_model_for_domain` still resolves the large 8 B configuration:
the hard-coded `final_decision = "8b"` ablation overrides the verdict. -/
theorem small_verdict_not_honored :
    select_model_for_domain true (some ⟨"1b", 99 / 100⟩) "medical"
      = Except.ok ("llama-8b", "medqa-lora", "8b")
    ∧ ¬ (("llama-8b", "medqa-lora", "8b") : String × String × String)
        = ("llama-1b", "medqa-lora", "1b") := by
  exact ⟨rfl, by decide⟩

/-- **C4 (amended).**  When the router-service call succeeds, the large
(8 B) model is always selected regardless of the returned prediction and
probability — the hard-coded ablation override; when the service is
unavailable or the call fails, the decision defaults to the small (1 B)
model. -/
theorem model_selection_ablation :
    ∀ (domain : String) (r : RouterServiceResponse) (ep1 m1 ep8 m8 : String),
      model_configs (domain ++ "-1b") = some (ep1, m1) →
      model_configs (domain ++ "-8b") = some (ep8, m8) →
      select_model_for_domain true (some r) domain = Except.ok (ep8, m8, "8b")
      ∧ select_model_for_domain true none domain = Except.ok (ep1, m1, "1b")
      ∧ ∀ resp, select_model_for_domain false resp domain
          = Except.ok (ep1, m1, "1b") := by
  intro domain r ep1 m1 ep8 m8 h1 h8
  refine ⟨?_, ?_, fun resp => ?_⟩
  · show (match model_configs (domain ++ "-8b") with
      | none => Except.error ("Model configuration missing for " ++ (domain ++ "-8b"))
      | some cfg => Except.ok (cfg.1, cfg.2, "8b")) = Except.ok (ep8, m8, "8b")
    rw [h8]
  · show (match model_configs (domain ++ "-1b") with
      | none => Except.error ("Model configuration missing for " ++ (domain ++ "-1b"))
      | some cfg => Except.ok (cfg.1, cfg.2, "1b")) = Except.ok (ep1, m1, "1b")
    rw [h1]
  · show (match model_configs (domain ++ "-1b") with
      | none => Except.error ("Model configuration missing for " ++ (domain ++ "-1b"))
      | some cfg => Except.ok (cfg.1, cfg.2, "1b")) = Except.ok (ep1, m1, "1b")
    rw [h1]

/-- Witness for `model_selection_ablation` in the `math` domain: a
`"1b"` service verdict yields the 8 B configuration, a failed call the
1 B configuration. -/
theorem model_selection_ablation_witness :
    model_configs "math-1b" = some ("llama-1b", "mathqa-lora")
    ∧ select_model_for_domain true (some ⟨"1b", 1 / 2⟩) "math"
        = Except.ok ("llama-8b", "mathqa-lora", "8b")
    ∧ select_model_for_domain true none "math"
        = Except.ok ("llama-1b", "mathqa-lora", "1b") := by
  refine ⟨by decide, ?_, ?_⟩
  · exact (model_selection_ablation "math" ⟨"1b", 1 / 2⟩ "llama-1b" "mathqa-lora"
      "llama-8b" "mathqa-lora" (by decide) (by decide)).1
  · exact (model_selection_ablation "math" ⟨"1b", 1 / 2⟩ "llama-1b" "mathqa-lora"
      "llama-8b" "mathqa-lora" (by decide) (by decide)).2.1

/-- **C5 (corrected), counterexample.**  When every decomposition
attempt fails, `decompose_task` returns the three-node sequential
planning → execution → review graph of `_create_default_graph`, not the
single-node commonsense DAG the claim describes. -/
theorem fallback_not_single_node :
    (decompose_task (fun _ => DecodeResult.parseError) "Draft the policy memo").nodes.length = 3
    ∧ (spec_single_node_fallback "Draft the policy memo").nodes.length = 1
    ∧ decompose_task (fun _ => DecodeResult.parseError) "Draft the policy memo"
        ≠ spec_single_node_fallback "Draft the policy memo" := by
  refine ⟨rfl, rfl, fun h => ?_⟩
  exact absurd (congrArg (fun g => g.nodes.length) h) (by decide)

/-- **C5 (amended).**  If all `MAX_RETRY = 3` decomposition attempts
fail validation, `decompose_task` returns the fallback sequential
three-node graph (planning → execution → review, each node's task text
derived from the original task). -/
theorem decompose_fallback_after_exhausted_retries :
    ∀ (attempts : ℕ → DecodeResult) (task : String),
      (∀ i, i < 3 → attempt_fails (attempts i)) →
      decompose_task attempts task = create_default_graph task := by
  intro attempts task h
  have key : ∀ (fuel i : ℕ), (∀ j, j < fuel → attempt_fails (attempts (i + j))) →
      create_dag_loop attempts i fuel = none := by
    intro fuel
    induction fuel with
    | zero => intro i _; rfl
    | succ n ih =>
      intro i hf
      have h0 : attempt_fails (attempts i) := by
        have := hf 0 (by omega)
        simpa using this
      have hrest : ∀ j, j < n → attempt_fails (attempts (i + 1 + j)) := by
        intro j hj
        have := hf (j + 1) (by omega)
        have harith : i + (j + 1) = i + 1 + j := by omega
        rwa [harith] at this
      unfold create_dag_loop
      cases hc : attempts i with
      | parseError => exact ih (i + 1) hrest
      | decoded d =>
        rw [hc] at h0
        have hv : validate_dag d = false := h0
        show (if validate_dag d = true then some d
          else create_dag_loop attempts (i + 1) n) = none
        rw [if_neg (by simp [hv])]
        exact ih (i + 1) hrest
  have hnone : create_dag attempts = none := by
    unfold create_dag
    exact key 3 0 (by intro j hj; simpa using h j hj)
  unfold decompose_task
  rw [hnone]

/-- Witness for `decompose_fallback_after_exhausted_retries`: with every
attempt failing to decode, the concrete task yields the default
sequential graph. -/
theorem decompose_fallback_after_exhausted_retries_witness :
    decompose_task (fun _ => DecodeResult.parseError) "List the filing steps"
      = create_default_graph "List the filing steps" := by
  exact decompose_fallback_after_exhausted_retries (fun _ => DecodeResult.parseError)
    "List the filing steps" (fun i _ => trivial)

/-- **C9 (confirmed).**  The prompt built for a subtask execution by
`_build_domain_prompt` is computed from the filtered context only:
every surviving context entry has a key other than `user_id` and a
value with non-whitespace content, and consequently the prompt text is
unchanged under any change of the `user_id` value in the context. -/
theorem subtask_prompt_excludes_user_id :
    (∀ (cfg : Option AgentCfg) (task : String) (ctx : List (String × String))
        (u v : String),
      build_domain_prompt cfg task (("user_id", u) :: ctx)
        = build_domain_prompt cfg task (("user_id", v) :: ctx))
    ∧ (∀ (ctx : List (String × String)) (k v : String),
        (k, v) ∈ filter_context ctx → k ≠ "user_id" ∧ strStrip v ≠ "") := by
  constructor
  · intro cfg task ctx u v
    cases cfg with
    | none => rfl
    | some c =>
      have hf : ∀ w : String,
          filter_context (("user_id", w) :: ctx) = filter_context ctx := by
        intro w
        simp [filter_context]
      simp only [build_domain_prompt, hf, List.isEmpty]
  · intro ctx k v hm
    have hp := (List.mem_filter.mp hm).2
    simp only [Bool.and_eq_true, Bool.not_eq_true', beq_eq_false_iff_ne,
      ne_eq] at hp
    exact ⟨hp.1.1, hp.2⟩

/-- Witness for `subtask_prompt_excludes_user_id`: two contexts
differing only in the `user_id` value produce the same prompt, and a
surviving filtered entry is a non-`user_id` key with content. -/
theorem subtask_prompt_excludes_user_id_witness :
    build_domain_prompt (some ⟨"You are a reviewer.", 2 / 5, 512⟩) "Review the plan"
        [("user_id", "alice"), ("node1", "done")]
      = build_domain_prompt (some ⟨"You are a reviewer.", 2 / 5, 512⟩) "Review the plan"
        [("user_id", "bob"), ("node1", "done")]
    ∧ ("node1" ≠ "user_id" ∧ strStrip "done" ≠ "") := by
  constructor
  · exact subtask_prompt_excludes_user_id.1 (some ⟨"You are a reviewer.", 2 / 5, 512⟩)
      "Review the plan" [("node1", "done")] "alice" "bob"
  · exact subtask_prompt_excludes_user_id.2 [("node1", "done")] "node1" "done" (by decide)

/-- Helper: `calculate_flops` is non-negative for non-negative
parameter counts and token totals. -/
theorem calculate_flops_nonneg {p : ℚ} {t : ℤ} (hp : 0 ≤ p) (ht : 0 ≤ t) :
    0 ≤ calculate_flops p t := by
  unfold calculate_flops
  have ht' : (0 : ℚ) ≤ (t : ℚ) := by exact_mod_cast ht
  have h1 : (0 : ℚ) ≤ p * (10 : ℚ) ^ 9 := mul_nonneg hp (by positivity)
  have h2 : (0 : ℚ) ≤ 2 * (p * (10 : ℚ) ^ 9) := by linarith
  exact div_nonneg (mul_nonneg h2 ht') (by positivity)

/-- Helper: every parameter count in the `model_sizes` table is
non-negative. -/
theorem model_sizes_nonneg {k : String} {p : ℚ}
    (h : model_sizes k = some p) : 0 ≤ p := by
  unfold model_sizes at h
  split_ifs at h <;> simp_all <;> linarith [h]

/-- Helper: one recording step adds exactly `opFlops` to the running
total. -/
theorem stepMetrics_totalFlops {s : MetricsState} {op : MetricsOp}
    {s₂ : MetricsState} (h : stepMetrics s op = some s₂) :
    s₂.totalFlops = s.totalFlops + opFlops op := by
  cases op with
  | routerCall i o => cases h; rfl
  | subRouterCall i o => cases h; rfl
  | handlerCall i o => cases h; rfl
  | agentCall dm ms i o =>
      simp only [stepMetrics] at h
      cases hms : model_sizes ("agent-" ++ ms) with
      | none => rw [hms] at h; simp at h
      | some p =>
          rw [hms] at h
          simp only [Option.map_some'] at h
          cases h
          show (add_agent_call s dm ms p i o).totalFlops
            = s.totalFlops + calculate_flops ((model_sizes ("agent-" ++ ms)).getD 0) (i + o)
          rw [hms]
          rfl

/-- Helper: one recording step appends exactly one priced call record,
so the recorded FLOP sum also grows by `opFlops`. -/
theorem stepMetrics_sumRecorded {s : MetricsState} {op : MetricsOp}
    {s₂ : MetricsState} (h : stepMetrics s op = some s₂) :
    sumRecordedFlops s₂ = sumRecordedFlops s + opFlops op := by
  cases op with
  | routerCall i o =>
      cases h
      simp [sumRecordedFlops, add_router_call, opFlops]
      ring
  | subRouterCall i o =>
      cases h
      simp [sumRecordedFlops, add_sub_router_call, opFlops]
      ring
  | handlerCall i o =>
      cases h
      simp [sumRecordedFlops, add_handler_call, opFlops]
      ring
  | agentCall dm ms i o =>
      simp only [stepMetrics] at h
      cases hms : model_sizes ("agent-" ++ ms) with
      | none => rw [hms] at h; simp at h
      | some p =>
          rw [hms] at h
          simp only [Option.map_some'] at h
          cases h
          simp [sumRecordedFlops, add_agent_call, opFlops, hms]
          ring

/-- Helper: one recording step preserves the pricing invariant on all
recorded calls. -/
theorem stepMetrics_priced {s : MetricsState} {op : MetricsOp}
    {s₂ : MetricsState} (h : stepMetrics s op = some s₂)
    (hs : allCallsPriced s) : allCallsPriced s₂ := by
  obtain ⟨hr, ha, hh⟩ := hs
  cases op with
  | routerCall i o =>
      cases h
      refine ⟨fun c hc => ?_, ha, hh⟩
      rcases List.mem_append.mp hc with hc | hc
      · exact hr c hc
      · simp at hc
        subst hc
        exact ⟨rfl, Or.inl rfl⟩
  | subRouterCall i o =>
      cases h
      refine ⟨fun c hc => ?_, ha, hh⟩
      rcases List.mem_append.mp hc with hc | hc
      · exact hr c hc
      · simp at hc
        subst hc
        exact ⟨rfl, Or.inr rfl⟩
  | handlerCall i o =>
      cases h
      refine ⟨hr, ha, fun c hc => ?_⟩
      rcases List.mem_append.mp hc with hc | hc
      · exact hh c hc
      · simp at hc
        subst hc
        exact ⟨rfl, Or.inl rfl⟩
  | agentCall dm ms i o =>
      simp only [stepMetrics] at h
      cases hms : model_sizes ("agent-" ++ ms) with
      | none => rw [hms] at h; simp at h
      | some p =>
          rw [hms] at h
          simp only [Option.map_some'] at h
          cases h
          refine ⟨hr, fun c hc => ?_, hh⟩
          rcases List.mem_append.mp hc with hc | hc
          · exact ha c hc
          · simp at hc
            subst hc
            refine ⟨rfl, ?_⟩
            show calculate_flops p (i + o)
              = calculate_flops ((model_sizes ("agent-" ++ ms)).getD 0) (i + o)
            rw [hms]
            rfl

/-- Helper: `opFlops` is non-negative when the operation's token counts
are. -/
theorem opFlops_nonneg {op : MetricsOp} (ht : opTokensNonneg op) :
    0 ≤ opFlops op := by
  cases op with
  | routerCall i o => exact calculate_flops_nonneg (by norm_num) (by exact add_nonneg ht.1 ht.2)
  | subRouterCall i o => exact calculate_flops_nonneg (by norm_num) (by exact add_nonneg ht.1 ht.2)
  | handlerCall i o => exact calculate_flops_nonneg (by norm_num) (by exact add_nonneg ht.1 ht.2)
  | agentCall dm ms i o =>
      refine calculate_flops_nonneg ?_ (add_nonneg ht.1 ht.2)
      cases hms : model_sizes ("agent-" ++ ms) with
      | none => simp [hms]
      | some p => simpa [hms] using model_sizes_nonneg hms

/-- Helper: running a list of operations adds the sum of their FLOP
costs to the total. -/
theorem runMetricsFrom_totalFlops :
    ∀ (ops : List MetricsOp) (s s₂ : MetricsState),
      runMetricsFrom s ops = some s₂ →
      s₂.totalFlops = s.totalFlops + (ops.map opFlops).sum := by
  intro ops
  induction ops with
  | nil =>
      intro s s₂ h
      cases h
      simp
  | cons op ops ih =>
      intro s s₂ h
      unfold runMetricsFrom at h
      cases hs : stepMetrics s op with
      | none => rw [hs] at h; simp at h
      | some s₁ =>
          rw [hs] at h
          simp only [Option.some_bind] at h
          rw [ih s₁ s₂ h, stepMetrics_totalFlops hs]
          simp
          ring

/-- Helper: the recorded-sum invariant is preserved along a run. -/
theorem runMetricsFrom_sumRecorded :
    ∀ (ops : List MetricsOp) (s s₂ : MetricsState),
      sumRecordedFlops s = s.totalFlops →
      runMetricsFrom s ops = some s₂ →
      sumRecordedFlops s₂ = s₂.totalFlops := by
  intro ops
  induction ops with
  | nil =>
      intro s s₂ hinv h
      cases h
      exact hinv
  | cons op ops ih =>
      intro s s₂ hinv h
      unfold runMetricsFrom at h
      cases hs : stepMetrics s op with
      | none => rw [hs] at h; simp at h
      | some s₁ =>
          rw [hs] at h
          simp only [Option.some_bind] at h
          refine ih s₁ s₂ ?_ h
          rw [stepMetrics_sumRecorded hs, stepMetrics_totalFlops hs, hinv]

/-- Helper: the pricing invariant is preserved along a run. -/
theorem runMetricsFrom_priced :
    ∀ (ops : List MetricsOp) (s s₂ : MetricsState),
      allCallsPriced s →
      runMetricsFrom s ops = some s₂ →
      allCallsPriced s₂ := by
  intro ops
  induction ops with
  | nil =>
      intro s s₂ hinv h
      cases h
      exact hinv
  | cons op ops ih =>
      intro s s₂ hinv h
      unfold runMetricsFrom at h
      cases hs : stepMetrics s op with
      | none => rw [hs] at h; simp at h
      | some s₁ =>
          rw [hs] at h
          simp only [Option.some_bind] at h
          exact ih s₁ s₂ (stepMetrics_priced hs hinv) h

/-- Helper: running operations with non-negative token counts never
decreases the total. -/
theorem runMetricsFrom_mono :
    ∀ (ops : List MetricsOp) (s s₂ : MetricsState),
      runMetricsFrom s ops = some s₂ →
      (∀ op ∈ ops, opTokensNonneg op) →
      s.totalFlops ≤ s₂.totalFlops := by
  intro ops
  induction ops with
  | nil =>
      intro s s₂ h _
      cases h
      exact le_refl _
  | cons op ops ih =>
      intro s s₂ h hnn
      unfold runMetricsFrom at h
      cases hs : stepMetrics s op with
      | none => rw [hs] at h; simp at h
      | some s₁ =>
          rw [hs] at h
          simp only [Option.some_bind] at h
          have h1 : s.totalFlops ≤ s₁.totalFlops := by
            rw [stepMetrics_totalFlops hs]
            have := opFlops_nonneg (hnn op (by simp))
            linarith
          exact le_trans h1 (ih s₁ s₂ h (fun o ho => hnn o (by simp [ho])))

/-- Helper: a run over concatenated operation lists is the bind of the
two runs. -/
theorem runMetricsFrom_append :
    ∀ (ops₁ ops₂ : List MetricsOp) (s : MetricsState),
      runMetricsFrom s (ops₁ ++ ops₂)
        = (runMetricsFrom s ops₁).bind fun s₁ => runMetricsFrom s₁ ops₂ := by
  intro ops₁
  induction ops₁ with
  | nil => intro ops₂ s; simp [runMetricsFrom]
  | cons op ops ih =>
      intro ops₂ s
      show (stepMetrics s op).bind (fun s₁ => runMetricsFrom s₁ (ops ++ ops₂))
        = ((stepMetrics s op).bind fun s₁ => runMetricsFrom s₁ ops).bind
            fun s₁ => runMetricsFrom s₁ ops₂
      cases hs : stepMetrics s op with
      | none => rfl
      | some s₁ =>
          show runMetricsFrom s₁ (ops ++ ops₂)
            = (runMetricsFrom s₁ ops).bind fun s₂ => runMetricsFrom s₂ ops₂
          exact ih ops₂ s₁

/-- **C8 (confirmed).**  After any successful collector run: the running
total equals `Σ 2 × Pᵢ × 10⁹ × total_tokensᵢ / 10¹²` over the recorded
operations; the total equals the sum of the `flops` fields of all
recorded calls; every recorded call is priced by the
`calculate_flops` formula at its class's parameter count; and extending
a run with further calls (of non-negative token counts) never
decreases the total.  Python floats are modelled as rationals. -/
theorem metrics_flops_accounting :
    ∀ (ops : List MetricsOp) (s : MetricsState),
      runMetrics ops = some s →
      s.totalFlops = (ops.map opFlops).sum
      ∧ s.totalFlops = sumRecordedFlops s
      ∧ allCallsPriced s
      ∧ ∀ (ops₂ : List MetricsOp) (s₂ : MetricsState),
          runMetrics (ops ++ ops₂) = some s₂ →
          (∀ op ∈ ops₂, opTokensNonneg op) →
          s.totalFlops ≤ s₂.totalFlops := by
  intro ops s h
  refine ⟨?_, ?_, ?_, ?_⟩
  · have := runMetricsFrom_totalFlops ops resetMetrics s h
    simpa [resetMetrics] using this
  · exact (runMetricsFrom_sumRecorded ops resetMetrics s
      (by simp [resetMetrics, sumRecordedFlops]) h).symm
  · exact runMetricsFrom_priced ops resetMetrics s
      (by exact ⟨fun c hc => by simp [resetMetrics] at hc,
        fun c hc => by simp [resetMetrics] at hc,
        fun c hc => by simp [resetMetrics] at hc⟩) h
  · intro ops₂ s₂ h₂ hnn
    unfold runMetrics at h h₂
    rw [runMetricsFrom_append, h] at h₂
    simp only [Option.some_bind] at h₂
    exact runMetricsFrom_mono ops₂ s s₂ h₂ hnn

/-- Witness for `metrics_flops_accounting`: a run with one router call
of 1+1 tokens yields total `4/125` TFLOPs, equal to the operation-cost
sum. -/
theorem metrics_flops_accounting_witness :
    runMetrics [MetricsOp.routerCall 1 1]
      = some ⟨[⟨1, 1, 2, 4 / 125⟩], [], [], 4 / 125⟩
    ∧ (MetricsState.mk [⟨1, 1, 2, 4 / 125⟩] [] [] (4 / 125)).totalFlops
        = ([MetricsOp.routerCall 1 1].map opFlops).sum := by
  have hrun : runMetrics [MetricsOp.routerCall 1 1]
      = some ⟨[⟨1, 1, 2, 4 / 125⟩], [], [], 4 / 125⟩ := by
    norm_num [runMetrics, runMetricsFrom, stepMetrics, add_router_call,
      resetMetrics, calculate_flops]
  exact ⟨hrun, (metrics_flops_accounting [MetricsOp.routerCall 1 1]
    ⟨[⟨1, 1, 2, 4 / 125⟩], [], [], 4 / 125⟩ hrun).1⟩

/-- Helper: the boolean duplicate check of `validate_graph` agrees with
`List.Nodup`. -/
theorem nodupBool_iff : ∀ l : List String, nodupBool l = true ↔ l.Nodup := by
  intro l
  induction l with
  | nil => simp [nodupBool]
  | cons x xs ih =>
      simp [nodupBool, List.nodup_cons, ih, List.contains]

/-- **C3 (corrected), counterexample.**  The claim says every DAG the
Decomposer returns has an acyclic dependency digraph (and domains from
the closed set).  `cyclicDag` — two tasks depending on each other —
passes the pydantic validators unchanged, because `validate_graph` only
checks id uniqueness and that dependencies reference existing ids; the
induced digraph has the 2-cycle task1 → task2 → task1.  (Nodes carry a
`role`, not a `domain`, field.) -/
theorem validator_accepts_cycle :
    validate_dag cyclicDag = true ∧ ¬ AcyclicDag cyclicDag := by
  constructor
  · decide
  · intro h
    apply h "task1"
    have e1 : depEdge cyclicDag "task1" "task2" :=
      ⟨⟨"task2", "execution", "Carry out the outlined steps and report the outcome", ["task1"]⟩,
        by simp [cyclicDag], rfl, by simp⟩
    have e2 : depEdge cyclicDag "task2" "task1" :=
      ⟨⟨"task1", "planning", "Analyze the question and outline the needed steps", ["task2"]⟩,
        by simp [cyclicDag], rfl, by simp⟩
    exact Relation.TransGen.head e1 (Relation.TransGen.single e2)

/-- **C3 (amended).**  Every DAG accepted by the Decomposer's validators
satisfies: all task ids are unique; every task's role is in the closed
set {planning, execution, review}; no task depends on itself; and every
declared dependency id is the id of a task in the same DAG.  Acyclicity
beyond the self-dependency check is not validated. -/
theorem validated_dag_invariants :
    ∀ d : TaskDAG, validate_dag d = true →
      (task_ids d.tasks).Nodup
      ∧ ∀ t ∈ d.tasks, t.role ∈ allowed_roles ∧ t.id ∉ t.dependencies
          ∧ ∀ dep ∈ t.dependencies, dep ∈ task_ids d.tasks := by
  intro d hv
  unfold validate_dag validate_graph at hv
  simp only [Bool.and_eq_true, List.all_eq_true] at hv
  obtain ⟨hroles, hnodup, hdeps⟩ := hv
  refine ⟨(nodupBool_iff _).mp hnodup, fun t ht => ?_⟩
  have hr := hroles t ht
  unfold validate_role at hr
  rw [Bool.and_eq_true] at hr
  obtain ⟨hrole, hself⟩ := hr
  refine ⟨List.elem_iff.mp hrole, fun hmem => ?_, fun dep hdep => ?_⟩
  · have hc : t.dependencies.contains t.id = true := List.elem_iff.mpr hmem
    rw [hc] at hself
    simp at hself
  · exact List.elem_iff.mp (hdeps t ht dep hdep)

/-- Witness for `validated_dag_invariants` at a concrete validated
single-task DAG. -/
theorem validated_dag_invariants_witness :
    (task_ids singleValidDag.tasks).Nodup
    ∧ ∀ t ∈ singleValidDag.tasks, t.role ∈ allowed_roles ∧ t.id ∉ t.dependencies
        ∧ ∀ dep ∈ t.dependencies, dep ∈ task_ids singleValidDag.tasks := by
  exact validated_dag_invariants singleValidDag (by decide)

/-- Helper: every id that a superstep adds is the entry id or the
target of some edge. -/
theorem sched_step_sources (g : SchedGraph) (done : List String) (x : String)
    (hx : x ∈ sched_step g done) :
    x ∈ done ∨ ∃ e ∈ g.edges, e.tgt = x := by
  rcases List.mem_append.mp hx with hx | hx
  · exact Or.inl hx
  · right
    obtain ⟨n, hn, hid⟩ := List.mem_map.mp hx
    have hready := (List.mem_filter.mp hn).2
    unfold ready_to_run at hready
    rw [Bool.and_eq_true, Bool.and_eq_true] at hready
    obtain ⟨⟨-, hany⟩, -⟩ := hready
    obtain ⟨e, he, het⟩ := List.any_eq_true.mp hany
    exact ⟨e, he, by rw [eq_of_beq het, hid]⟩

/-- Helper: iterated supersteps only ever contain the initial ids or
ids that are the target of some edge. -/
theorem sched_run_sources (g : SchedGraph) :
    ∀ (k : ℕ) (done : List String) (x : String),
      x ∈ sched_run g k done →
      x ∈ done ∨ ∃ e ∈ g.edges, e.tgt = x := by
  intro k
  induction k with
  | zero => intro done x hx; exact Or.inl hx
  | succ n ih =>
      intro done x hx
      rcases ih (sched_step g done) x hx with hx | hx
      · exact sched_step_sources g done x hx
      · exact Or.inr hx

/-- Helper: supersteps never drop already-executed ids. -/
theorem sched_run_superset (g : SchedGraph) :
    ∀ (k : ℕ) (done : List String) (x : String),
      x ∈ done → x ∈ sched_run g k done := by
  intro k
  induction k with
  | zero => intro done x hx; exact hx
  | succ n ih =>
      intro done x hx
      exact ih (sched_step g done) x (List.mem_append.mpr (Or.inl hx))

/-- **C2 (corrected), counterexample.**  A DAG with two in-degree-zero
nodes and no edges is compiled with `node_a` as the single entry point;
at termination the results map contains only `node_a` — `node_b` is a
node of the DAG but its id is absent, so the whole DAG does not run to
completion. -/
theorem multi_entry_dag_not_completed :
    build_graph twoIndepGraph = Except.ok twoIndepSched
    ∧ "node_b" ∈ twoIndepSched.nodes.map SchedNode.id
    ∧ executed_ids twoIndepSched = ["node_a"]
    ∧ "node_b" ∉ executed_ids twoIndepSched := by
  refine ⟨rfl, by decide, by decide, by decide⟩

/-- **C2 (amended).**  The scheduler executes exactly the entry-point
closure: the chosen entry node always appears in the results map, but
any other node of in-degree zero is never executed — a DAG with more
than one in-degree-zero node therefore does not run to completion
(`set_entry_point` receives a single node from `_find_entry_node`). -/
theorem scheduler_skips_other_entry_nodes :
    ∀ (rg : RouterGraph) (g : SchedGraph), build_graph rg = Except.ok g →
      ∀ n ∈ g.nodes, (∀ e ∈ g.edges, e.tgt ≠ n.id) → n.id ≠ g.entryId →
        g.entryId ∈ executed_ids g ∧ n.id ∉ executed_ids g := by
  intro rg g hb n hn hnoedge hne
  constructor
  · exact sched_run_superset g g.nodes.length [g.entryId] g.entryId (by simp)
  · intro hmem
    rcases sched_run_sources g g.nodes.length [g.entryId] n.id hmem with h | ⟨e, he, het⟩
    · simp at h
      exact hne h
    · exact hnoedge e he het

/-- Witness for `scheduler_skips_other_entry_nodes` at the concrete
two-entry DAG: `node_a` (the entry) executes, `node_b` does not. -/
theorem scheduler_skips_other_entry_nodes_witness :
    twoIndepSched.entryId ∈ executed_ids twoIndepSched
    ∧ ¬ ("node_b" : String) ∈ executed_ids twoIndepSched := by
  exact scheduler_skips_other_entry_nodes twoIndepGraph twoIndepSched rfl
    ⟨"node_b", "law", "Check the relevant statute of limitations"⟩
    (by decide) (by intro e he; simp [twoIndepSched] at he) (by decide)

/-- Helper: a node dict carrying only `id`, `role` and `task` keys makes
`build_graph` raise `KeyError: domain`. -/
theorem read_builder_node_role_keyed (a b c : String) :
    read_builder_node [("id", a), ("role", b), ("task", c)]
      = Except.error "KeyError: domain" := rfl

/-- **C1 (code bug).**  For every decomposition outcome — any validated
`TaskDAG`, or the fallback — `process_task`'s first iteration fails
inside `build_graph` before any node executes: the Global Router emits
nodes keyed `id`/`role`/`task` while `build_graph` reads
`node["domain"]` (a `KeyError`), and an empty task list hits the
`nodes[0]` fallback of `_find_entry_node` (an `IndexError`).
`process_task` installs no exception handler, so the exception escapes
instead of the structured result dictionary the claim promises. -/
theorem process_task_first_iteration_raises :
    ∀ (attempts : ℕ → DecodeResult) (task : String),
      ∃ msg, process_task_decompose_and_build attempts task
        = Except.error msg := by
  intro attempts task
  unfold process_task_decompose_and_build decompose_task
  cases hc : create_dag attempts with
  | none => exact ⟨"KeyError: domain", rfl⟩
  | some d =>
      obtain ⟨tasks⟩ := d
      cases tasks with
      | nil => exact ⟨"IndexError: nodes[0]", rfl⟩
      | cons t ts => exact ⟨"KeyError: domain", rfl⟩

end Orchestrator
